import Mathlib

/-!
# Verification of the ptz-remote relay and PTZ command pipeline

Shallow embedding of the core logic of the ptz-remote repository:

* `internal/panasonic/panasonic.go` — trailing-edge command throttle and the
  text/CGI encoder (`speedToValue`, preset commands);
* `internal/visca/visca.go` — fixed-interval rate limiting and the binary
  VISCA encoder (`PanTilt` payload, preset commands, VISCA-over-IP framing);
* `internal/rtsp/client.go` — interleaved-frame read loop, SDP control-URL
  resolution, keepalive loop, reconnection backoff;
* `internal/server/server.go` — non-blocking fan-out onto bounded
  per-viewer packet queues.

Float64 axis values are modelled as rationals (the code only compares,
scales by small integer constants, and truncates, which these inputs
exercise exactly); machine integers are modelled as `Int`/`Nat` with
explicit wrap-around where overflow matters; byte sequences are `List Nat`.
-/

namespace PtzRemote

/-! ## Common numeric helpers -/

/-- Go's `int(x)` conversion from a floating value: truncation toward zero. -/
def goTrunc (q : ℚ) : ℤ :=
  if q < 0 then -(Int.floor (-q)) else Int.floor q

/-- Clamp a rational to the interval [-1, 1] (panasonic.go:215-219). -/
def clampQ (v : ℚ) : ℚ :=
  if v < -1 then -1 else if v > 1 then 1 else v

/-- visca.go:250-258, `clampInt(v, min, max)`. -/
def clampInt (v lo hi : ℤ) : ℤ :=
  if v < lo then lo else if v > hi then hi else v

/-- visca.go:243-248, `abs(x float64)`. -/
def absQ (x : ℚ) : ℚ := if x < 0 then -x else x

/-! ## Panasonic text/CGI encoder (panasonic.go) -/

/-- panasonic.go:213-234, `speedToValue`: map a -1.0..1.0 axis value to
Panasonic's 01-99 two-digit range with 50 = stop and a deadzone of
(-0.05, 0.05). -/
def speedToValue (v0 : ℚ) : ℤ :=
  let v := clampQ v0
  if -0.05 < v ∧ v < 0.05 then 50
  else goTrunc (50 + v * 49)

/-- Go's `fmt.Sprintf("%02d", n)` for 0 ≤ n ≤ 99: two-digit zero padding. -/
def fmt02 (n : ℤ) : String :=
  if n < 10 then "0" ++ toString n else toString n

/-- panasonic.go:177-185, `sendPanTiltCmd`: the ASCII command string
written to the CGI endpoint for a pan/tilt update. -/
def panasonicPanTiltCmd (pan tilt : ℚ) : String :=
  "#PTS" ++ fmt02 (speedToValue pan) ++ fmt02 (speedToValue tilt)

/-- panasonic.go:160-165, `RecallPreset`: validation then the `#R%02d`
command string; an error return means nothing is sent. -/
def panasonicRecallPreset (preset : ℤ) : Except String String :=
  if preset < 0 ∨ preset > 99 then
    Except.error "preset must be 0-99 for Panasonic cameras"
  else
    Except.ok ("#R" ++ fmt02 preset)

/-- panasonic.go:168-173, `SavePreset`. -/
def panasonicSavePreset (preset : ℤ) : Except String String :=
  if preset < 0 ∨ preset > 99 then
    Except.error "preset must be 0-99 for Panasonic cameras"
  else
    Except.ok ("#M" ++ fmt02 preset)

/-! ## VISCA binary encoder (visca.go) -/

/-- visca.go:147-171, the body of `Controller.PanTilt` after the rate
limit: the 7-byte command payload `01 06 01 VV WW XX YY`. The direction
if-chain also overrides the speed to `0x01` in the stop branch, exactly as
the code does. -/
def viscaPanTiltPayload (pan tilt : ℚ) : List ℕ :=
  let panSpeed0 : ℤ := clampInt (goTrunc (absQ pan * 24)) 1 24
  let tiltSpeed0 : ℤ := clampInt (goTrunc (absQ tilt * 20)) 1 20
  let pd : ℕ × ℤ :=
    if pan < -0.05 then (1, panSpeed0)
    else if pan > 0.05 then (2, panSpeed0)
    else (3, 1)
  let td : ℕ × ℤ :=
    if tilt > 0.05 then (1, tiltSpeed0)
    else if tilt < -0.05 then (2, tiltSpeed0)
    else (3, 1)
  [0x01, 0x06, 0x01, pd.2.toNat, td.2.toNat, pd.1, td.1]

/-- visca.go:76-84, `buildVISCAPayload`: address byte `0x80 | addr`,
payload, `0xFF` terminator. -/
def buildVISCAPayload (addr : ℕ) (payload : List ℕ) : List ℕ :=
  (Nat.lor 0x80 addr) :: payload ++ [0xFF]

/-- visca.go:87-102, `buildVISCAOverIP`: 8-byte header (type 0x01 0x00,
big-endian 16-bit length, big-endian 32-bit sequence number) plus payload. -/
def buildVISCAOverIP (seqNum : ℕ) (viscaPayload : List ℕ) : List ℕ :=
  let len := viscaPayload.length % 2 ^ 16
  let sq := seqNum % 2 ^ 32
  [0x01, 0x00, len / 256, len % 256,
   sq / 2 ^ 24, sq / 2 ^ 16 % 256, sq / 2 ^ 8 % 256, sq % 256]
  ++ viscaPayload

/-- The mutable VISCA controller state touched by `sendCommand` over UDP:
the 32-bit sequence counter (visca.go:12-23). -/
structure ViscaState where
  addr : ℕ
  seqNum : ℕ
  deriving DecidableEq, Repr

/-- visca.go:105-129, `sendCommand` in the UDP case: frame the payload and
bump the sequence counter (uint32 wrap-around). -/
def viscaSendCommand (st : ViscaState) (payload : List ℕ) :
    ViscaState × List ℕ :=
  let viscaPayload := buildVISCAPayload st.addr payload
  let packet := buildVISCAOverIP st.seqNum viscaPayload
  ({ st with seqNum := (st.seqNum + 1) % 2 ^ 32 }, packet)

/-- visca.go:224-231, `RecallPreset`: validation, then Memory Recall
`01 04 3F 02 pp`; an error return means no bytes are sent and the
controller state is untouched. -/
def viscaRecallPreset (st : ViscaState) (preset : ℤ) :
    Except String (ViscaState × List ℕ) :=
  if preset < 0 ∨ preset > 255 then
    Except.error "preset must be 0-255"
  else
    Except.ok (viscaSendCommand st [0x01, 0x04, 0x3F, 0x02, preset.toNat % 256])

/-- visca.go:234-241, `SavePreset`: Memory Set `01 04 3F 01 pp`. -/
def viscaSavePreset (st : ViscaState) (preset : ℤ) :
    Except String (ViscaState × List ℕ) :=
  if preset < 0 ∨ preset > 255 then
    Except.error "preset must be 0-255"
  else
    Except.ok (viscaSendCommand st [0x01, 0x04, 0x3F, 0x01, preset.toNat % 256])

/-! ## The trailing-edge command throttle (panasonic.go:14-45, 88-126)

One actuator group's throttle, generic in the value type `V` (pan/tilt as a
pair, zoom as a single value). Time is integer milliseconds. The mutex
serialises `PanTilt`/`trigger`/the timer callback, so a sequential trace
of atomic steps models the observable behaviour. -/

/-- panasonic.go:10: `minInterval = 50 * time.Millisecond`. -/
def minIntervalMs : ℤ := 50

/-- The per-group throttle state: `lastSendTime`/`timerRunning` from the
`throttle` struct and the group's `pending`/`sent` values. -/
structure ThrottleState (V : Type) where
  lastSendTime : ℤ
  timerRunning : Bool
  pending : V
  sent : V

/-- panasonic.go:88-93, the `flush` callback: send (emit) the pending
value iff it differs from the last sent value, then record it as sent. -/
def flushStep {V : Type} [DecidableEq V] (st : ThrottleState V) :
    ThrottleState V × Option V :=
  if st.pending ≠ st.sent then ({ st with sent := st.pending }, some st.pending)
  else (st, none)

/-- panasonic.go:22-45, `throttle.trigger` called at time `now`: flush
immediately when the cooldown has passed, otherwise schedule the deferred
send if none is scheduled yet. -/
def triggerStep {V : Type} [DecidableEq V] (st : ThrottleState V) (now : ℤ) :
    ThrottleState V × Option V :=
  if now - st.lastSendTime ≥ minIntervalMs then
    let p := flushStep st
    ({ p.1 with lastSendTime := now }, p.2)
  else if ¬ st.timerRunning then
    ({ st with timerRunning := true }, none)
  else (st, none)

/-- panasonic.go:33-43, the body of the deferred-send goroutine when the
timer fires at time `now` (`= lastSendTime + 50`): flush whatever is
pending at that moment and clear the scheduled flag. -/
def timerFireStep {V : Type} [DecidableEq V] (st : ThrottleState V) (now : ℤ) :
    ThrottleState V × Option V :=
  let p := flushStep st
  ({ p.1 with lastSendTime := now, timerRunning := false }, p.2)

/-- panasonic.go:115-126, `Controller.PanTilt` (and `Zoom`): overwrite the
pending value, then trigger the throttle iff it differs from the last sent
value. -/
def submitStep {V : Type} [DecidableEq V] (st : ThrottleState V) (now : ℤ)
    (v : V) : ThrottleState V × Option V :=
  let st1 := { st with pending := v }
  if st1.pending ≠ st1.sent then triggerStep st1 now else (st1, none)

/-- Run a trace of timed submissions through the throttle, collecting the
values emitted towards the wire. -/
def runSubmits {V : Type} [DecidableEq V] (st : ThrottleState V) :
    List (ℤ × V) → ThrottleState V × List V
  | [] => (st, [])
  | (t, v) :: rest =>
    let p := submitStep st t v
    let q := runSubmits p.1 rest
    (q.1, p.2.toList ++ q.2)

/-! ## The VISCA fixed-interval rate limiter (visca.go:134-144) -/

/-- visca.go:134-144, the rate-limit guard of `Controller.PanTilt`: a
command arriving within 50ms of the previous send is skipped outright
(nothing is scheduled); otherwise the encoded payload is sent and the
timestamp updated. State is `lastPanTilt` in milliseconds. -/
def viscaPanTiltStep (lastPanTilt now : ℤ) (pan tilt : ℚ) :
    ℤ × Option (List ℕ) :=
  if now - lastPanTilt < 50 then (lastPanTilt, none)
  else (now, some (viscaPanTiltPayload pan tilt))

/-- Run a trace of timed pan/tilt submissions through the VISCA rate
limiter, collecting the payloads sent. -/
def viscaRunPanTilts (lastPanTilt : ℤ) :
    List (ℤ × ℚ × ℚ) → ℤ × List (List ℕ)
  | [] => (lastPanTilt, [])
  | (t, pan, tilt) :: rest =>
    let p := viscaPanTiltStep lastPanTilt t pan tilt
    let q := viscaRunPanTilts p.1 rest
    (q.1, p.2.toList ++ q.2)

/-! ## RTSP ingestion client (internal/rtsp/client.go) -/

/-- client.go:727-737 (second revision: 247-259 in the first), the
resolution of an SDP `a=control:` attribute value against the base URL. -/
def resolveControl (control baseURL : String) : String :=
  if control.startsWith "rtsp://" then control
  else if control = "*" then baseURL
  else if baseURL.endsWith "/" then baseURL ++ control
  else baseURL ++ "/" ++ control

/-- `io.ReadFull` on the modelled byte stream: read exactly `n` bytes or
fail (short read / EOF / error). -/
def takeExact (n : ℕ) (l : List ℕ) : Option (List ℕ × List ℕ) :=
  if n ≤ l.length then some (l.take n, l.drop n) else none

/-- client.go:848: `buf := make([]byte, 128*1024)`. -/
def readBufLen : ℕ := 128 * 1024

/-- client.go:847-936, `readLoop`, over one connection's byte stream,
fuel-indexed (the fuel only bounds iterations; `input.length` suffices
since every iteration consumes at least the 4 header bytes). Returns the
`(channel, payload)` pairs offered to `rtpChan`. A failed header or
payload read ends this connection's stream (the code triggers a reconnect,
which starts a fresh stream). A non-sentinel first byte, a zero length or
a length over the buffer size each skip to the next 4-byte header read
without consuming anything further. -/
def readLoopAux : ℕ → List ℕ → List (ℕ × List ℕ)
  | 0, _ => []
  | fuel + 1, input =>
    match takeExact 4 input with
    | none => []
    | some (header, rest) =>
      if header.getD 0 0 ≠ 36 then readLoopAux fuel rest
      else
        if header.getD 2 0 * 256 + header.getD 3 0 = 0 ∨
            header.getD 2 0 * 256 + header.getD 3 0 > readBufLen then
          readLoopAux fuel rest
        else
          match takeExact (header.getD 2 0 * 256 + header.getD 3 0) rest with
          | none => []
          | some (payload, rest2) =>
            if header.getD 1 0 = 0 then
              (header.getD 1 0, payload) :: readLoopAux fuel rest2
            else readLoopAux fuel rest2

/-- `readLoop` on a whole connection stream. -/
def readLoopRun (input : List ℕ) : List (ℕ × List ℕ) :=
  readLoopAux input.length input

/-- Read one text line up to and including the LF terminator; returns the
line content (without the LF) and the remaining stream. -/
def takeLine (l : List ℕ) : Option (List ℕ × List ℕ) :=
  match l.indexOf? 10 with
  | none => none
  | some i => some (l.take i, l.drop (i + 1))

/-- Scan forward for a blank line (an empty line, CRLF- or LF-terminated)
and return the stream after it. -/
def skipToBlankLine : ℕ → List ℕ → Option (List ℕ)
  | 0, _ => none
  | fuel + 1, l =>
    match takeLine l with
    | none => none
    | some (line, rest) =>
      if line = [] ∨ line = [13] then some rest
      else skipToBlankLine fuel rest

/-- The read loop as the specification describes it (refinement
comparison; not code of the repository): identical to `readLoopAux`
except that a marker with a non-sentinel first byte is skipped by scanning
the input forward for a blank line before resuming frame parsing. -/
def specScanReadAux : ℕ → List ℕ → List (ℕ × List ℕ)
  | 0, _ => []
  | fuel + 1, input =>
    match takeExact 4 input with
    | none => []
    | some (header, rest) =>
      if header.getD 0 0 ≠ 36 then
        match skipToBlankLine rest.length rest with
        | none => []
        | some rest' => specScanReadAux fuel rest'
      else
        if header.getD 2 0 * 256 + header.getD 3 0 = 0 ∨
            header.getD 2 0 * 256 + header.getD 3 0 > readBufLen then
          specScanReadAux fuel rest
        else
          match takeExact (header.getD 2 0 * 256 + header.getD 3 0) rest with
          | none => []
          | some (payload, rest2) =>
            if header.getD 1 0 = 0 then
              (header.getD 1 0, payload) :: specScanReadAux fuel rest2
            else specScanReadAux fuel rest2

/-- The spec-described read loop on a whole connection stream. -/
def specScanReadRun (input : List ℕ) : List (ℕ × List ℕ) :=
  specScanReadAux input.length input

/-- client.go:806-840, one tick of `keepaliveLoop` (every 30 seconds):
whether this tick forces a reconnect. The observation is: the `connected`
flag, whether `conn` is nil, whether the session token is empty, and
whether the GET_PARAMETER keepalive request failed. -/
def keepaliveTick (connected connIsNil sessionEmpty keepaliveErr : Bool) :
    Bool :=
  if !connected then false
  else if connIsNil || sessionEmpty then false
  else if keepaliveErr then true
  else false

/-- The liveness watchdog as the specification describes it (refinement
comparison; not code of the repository): while nominally connected, force
a reconnect whenever the time since the last forwarded packet exceeds the
fixed 10-second threshold. -/
def specWatchdogReconnect (connected : Bool) (msSinceLastPacket : ℤ) : Bool :=
  connected && decide (msSinceLastPacket > 10000)

/-! ## Reconnection backoff (client.go:563-577) -/

/-- Interpret an integer as a 64-bit two's-complement value (the wrap of
Go's `int64` arithmetic). -/
def wrap64 (n : ℤ) : ℤ := (n + 2 ^ 63) % 2 ^ 64 - 2 ^ 63

/-- Go's `1 << uint(s)` on a 64-bit `int`: modular left shift, zero once
the shift count reaches the word width. -/
def goShl1 (s : ℕ) : ℤ := if s < 64 then wrap64 (2 ^ s) else 0

/-- client.go:570-574: `delay := time.Duration(1<<uint(attempt-1)) *
time.Second; if delay > 30*time.Second { delay = 30 * time.Second }`,
in nanoseconds, with `int64` wrap-around made explicit. -/
def backoffDelayNs (attempt : ℕ) : ℤ :=
  let raw := wrap64 (goShl1 (attempt - 1) * 1000000000)
  if raw > 30 * 1000000000 then 30 * 1000000000 else raw

/-- client.go:577 `time.Sleep(delay)`: a nonpositive duration returns
immediately, so the observed delay is the computed delay floored at 0. -/
def observedSleepNs (attempt : ℕ) : ℤ := max (backoffDelayNs attempt) 0

/-- The backoff delay the specification states for attempt `k`:
min(2^(k-1) seconds, 30 seconds), in nanoseconds. -/
def specBackoffNs (attempt : ℕ) : ℤ :=
  min (2 ^ (attempt - 1) * 1000000000) (30 * 1000000000)

/-! ## Relay hub fan-out (server.go:120-135, client.go:924-934) -/

/-- server.go:164 and client.go:45: both per-viewer RTP queues are
buffered channels of capacity 500. -/
def viewerQueueCap : ℕ := 500

/-- A non-blocking send on a buffered channel of capacity `cap`
(`select { case ch <- x: default: }`): append when below capacity,
otherwise drop the element and leave the queue unchanged. -/
def tryEnqueue {α : Type} (cap : ℕ) (q : List α) (x : α) : List α :=
  if q.length < cap then q ++ [x] else q

/-- server.go:120-135, `broadcastRTP` delivering one packet: a
non-blocking enqueue onto every registered viewer's queue. -/
def broadcastStep {α : Type} (qs : List (List α)) (packet : α) :
    List (List α) :=
  qs.map (fun q => tryEnqueue viewerQueueCap q packet)

/-! ## Theorems -/

/-- C6: For every SDP control attribute value and base URL, resolution of
the control attribute satisfies the three documented cases: an absolute
value (with the rtsp:// scheme) is used as-is; the wildcard resolves to
the base URL; any other value resolves to the base plus a slash plus the
value, the slash inserted only when the base does not already end with
one. -/
theorem C6_control_url_resolution (control base : String) :
    (control.startsWith "rtsp://" = true → resolveControl control base = control) ∧
    (control = "*" → resolveControl control base = base) ∧
    (control.startsWith "rtsp://" = false → control ≠ "*" →
      resolveControl control base =
        if base.endsWith "/" then base ++ control
        else base ++ "/" ++ control) := by
  refine ⟨fun h => ?_, fun h => ?_, fun h1 h2 => ?_⟩
  · simp [resolveControl, h]
  · subst h
    simp [resolveControl, show ("*".startsWith "rtsp://") = false from by decide]
  · simp [resolveControl, h1, h2]

/-- C6 witness: the three spec examples, obtained from
`C6_control_url_resolution` at concrete inputs. -/
theorem C6_control_url_resolution_witness :
    resolveControl "*" "rtsp://h/s" = "rtsp://h/s" ∧
    resolveControl "rtsp://x" "rtsp://h/s" = "rtsp://x" ∧
    resolveControl "track1" "rtsp://h/s" = "rtsp://h/s/track1" := by
  refine ⟨(C6_control_url_resolution "*" "rtsp://h/s").2.1 rfl,
    (C6_control_url_resolution "rtsp://x" "rtsp://h/s").1
      (by with_unfolding_all decide), ?_⟩
  have h := (C6_control_url_resolution "track1" "rtsp://h/s").2.2
    (by decide) (by decide)
  rw [h]
  with_unfolding_all decide

/-- C4 counterexample: with the client nominally connected, the
connection and session present, the keepalive succeeding, and 11 seconds
elapsed since the last forwarded packet, the code forces no reconnect,
while the claimed watchdog would. -/
theorem C4_watchdog_counterexample :
    keepaliveTick true false false false = false ∧
    specWatchdogReconnect true 11000 = true := by decide

/-- C4 (amended): the only liveness supervision while nominally connected
is the periodic keepalive: a tick of the keepalive loop forces a reconnect
exactly when the client is connected, the connection and session token are
present, and the GET_PARAMETER keepalive request fails; the decision never
depends on the time since the last forwarded packet (no such timestamp is
tracked anywhere in the client). -/
theorem C4_keepalive_reconnect_iff (connected connIsNil sessionEmpty
    keepaliveErr : Bool) :
    keepaliveTick connected connIsNil sessionEmpty keepaliveErr = true ↔
      connected = true ∧ connIsNil = false ∧ sessionEmpty = false ∧
      keepaliveErr = true := by
  revert connected connIsNil sessionEmpty keepaliveErr
  decide

/-- C5: for attempts 1 through 34 the observed backoff delay equals
min(2^(k-1) s, 30 s) exactly as claimed, but at attempt 35 the
`time.Duration(1<<uint(attempt-1)) * time.Second` multiplication
overflows int64 to a negative value, the cap (which only rewrites values
above 30s) leaves it negative, and `time.Sleep` returns immediately: the
observed delay is 0, not the claimed 30s. -/
theorem C5_backoff_overflow :
    (∀ k ∈ Finset.Icc 1 34, observedSleepNs k = specBackoffNs k) ∧
    specBackoffNs 35 = 30 * 1000000000 ∧
    backoffDelayNs 35 = -1266874889709551616 ∧
    observedSleepNs 35 = 0 := by decide

/-- C5 witness: attempt 6 observes the capped 30s delay, via
`C5_backoff_overflow`. -/
theorem C5_backoff_overflow_witness :
    observedSleepNs 6 = specBackoffNs 6 :=
  C5_backoff_overflow.1 6 (by decide)

/-- C8: every out-of-range preset number (VISCA: outside 0..255;
Panasonic: outside 0..99) makes RecallPreset and SavePreset return the
validation error — producing no wire bytes and leaving the controller
state untouched, as the error constructor carries neither — and every
in-range preset number returns successfully. -/
theorem C8_preset_validation (st : ViscaState) (p : ℤ) :
    ((p < 0 ∨ p > 255) →
      viscaRecallPreset st p = Except.error "preset must be 0-255" ∧
      viscaSavePreset st p = Except.error "preset must be 0-255") ∧
    (0 ≤ p → p ≤ 255 →
      viscaRecallPreset st p =
        Except.ok (viscaSendCommand st [0x01, 0x04, 0x3F, 0x02, p.toNat % 256]) ∧
      viscaSavePreset st p =
        Except.ok (viscaSendCommand st [0x01, 0x04, 0x3F, 0x01, p.toNat % 256])) ∧
    ((p < 0 ∨ p > 99) →
      panasonicRecallPreset p =
        Except.error "preset must be 0-99 for Panasonic cameras" ∧
      panasonicSavePreset p =
        Except.error "preset must be 0-99 for Panasonic cameras") ∧
    (0 ≤ p → p ≤ 99 →
      panasonicRecallPreset p = Except.ok ("#R" ++ fmt02 p) ∧
      panasonicSavePreset p = Except.ok ("#M" ++ fmt02 p)) := by
  unfold viscaRecallPreset viscaSavePreset panasonicRecallPreset
    panasonicSavePreset
  refine ⟨fun h => ?_, fun h1 h2 => ?_, fun h => ?_, fun h1 h2 => ?_⟩
  · rw [if_pos h, if_pos h]; exact ⟨rfl, rfl⟩
  · rw [if_neg (by omega), if_neg (by omega)]; exact ⟨rfl, rfl⟩
  · rw [if_pos h, if_pos h]; exact ⟨rfl, rfl⟩
  · rw [if_neg (by omega), if_neg (by omega)]; exact ⟨rfl, rfl⟩

/-- C8 witness: preset 300 is rejected by the VISCA variant, preset 100
by the Panasonic variant, and preset 42 is accepted by both, via
`C8_preset_validation`. -/
theorem C8_preset_validation_witness :
    viscaRecallPreset ⟨1, 0⟩ 300 = Except.error "preset must be 0-255" ∧
    panasonicRecallPreset 100 =
      Except.error "preset must be 0-99 for Panasonic cameras" ∧
    viscaRecallPreset ⟨1, 0⟩ 42 =
      Except.ok (viscaSendCommand ⟨1, 0⟩ [0x01, 0x04, 0x3F, 0x02, 42]) ∧
    panasonicSavePreset 42 = Except.ok "#M42" := by
  refine ⟨((C8_preset_validation ⟨1, 0⟩ 300).1 (by decide)).1,
    ((C8_preset_validation ⟨1, 0⟩ 100).2.2.1 (by decide)).1,
    ((C8_preset_validation ⟨1, 0⟩ 42).2.1 (by decide) (by decide)).1, ?_⟩
  have h := ((C8_preset_validation ⟨1, 0⟩ 42).2.2.2 (by decide) (by decide)).2
  rw [h]
  rfl

/-- C9: a non-blocking enqueue onto a viewer queue below capacity appends
the packet, an enqueue onto a full queue returns the queue unchanged
(the packet is dropped for that viewer only), and broadcasting a packet
to any set of viewer queues that respect the capacity bound yields queues
that still respect it — the queue length never exceeds the fixed
capacity, and the producer's enqueue is a total function that never
waits on a consumer. -/
theorem C9_bounded_nonblocking_fanout {α : Type} :
    (∀ (qs : List (List α)) (packet : α),
      (∀ q ∈ qs, q.length ≤ viewerQueueCap) →
      ∀ q' ∈ broadcastStep qs packet, q'.length ≤ viewerQueueCap) ∧
    (∀ (q : List α) (packet : α),
      viewerQueueCap ≤ q.length → tryEnqueue viewerQueueCap q packet = q) ∧
    (∀ (q : List α) (packet : α),
      q.length < viewerQueueCap →
      tryEnqueue viewerQueueCap q packet = q ++ [packet]) := by
  refine ⟨fun qs packet hqs q' hq' => ?_, fun q packet h => ?_,
    fun q packet h => ?_⟩
  · simp only [broadcastStep, List.mem_map] at hq'
    obtain ⟨q, hq, rfl⟩ := hq'
    have := hqs q hq
    unfold tryEnqueue
    split
    · simpa using by omega
    · exact this
  · unfold tryEnqueue
    rw [if_neg (by omega)]
  · unfold tryEnqueue
    rw [if_pos h]

/-- C9 witness: broadcasting packet 7 to the one-viewer registry whose
queue holds a single packet keeps the queue within capacity, via
`C9_bounded_nonblocking_fanout`. -/
theorem C9_bounded_nonblocking_fanout_witness :
    ([5, 7] : List ℕ).length ≤ viewerQueueCap ∧
    tryEnqueue viewerQueueCap [5] 7 = [5, 7] :=
  ⟨(C9_bounded_nonblocking_fanout.1 [[5]] 7 (by decide)) [5, 7] (by decide),
   C9_bounded_nonblocking_fanout.2.2 [5] 7 (by decide)⟩

/-- Characterisation of a successful exact read: the bytes returned are
the first `n` of the stream, exactly `n` of them, and the remainder is
the stream after them. -/
lemma takeExact_spec {n : ℕ} {l a b : List ℕ}
    (h : takeExact n l = some (a, b)) :
    a.length = n ∧ a = l.take n ∧ b = l.drop n := by
  unfold takeExact at h
  split at h
  · rename_i hle
    simp only [Option.some.injEq, Prod.mk.injEq] at h
    obtain ⟨rfl, rfl⟩ := h
    exact ⟨by simp [Nat.min_eq_left hle], rfl, rfl⟩
  · exact absurd h (by simp)

/-- Every pair the read loop offers to the packet channel is on channel 0
and carries a payload of the declared length, which the loop has checked
to be nonzero and at most the read buffer size. -/
lemma readLoopAux_sound : ∀ (fuel : ℕ) (input : List ℕ) (pr : ℕ × List ℕ),
    pr ∈ readLoopAux fuel input →
    pr.1 = 0 ∧ 0 < pr.2.length ∧ pr.2.length ≤ readBufLen := by
  intro fuel
  induction fuel with
  | zero => intro input pr h; simp [readLoopAux] at h
  | succ n ih =>
    intro input pr h
    rw [readLoopAux] at h
    split at h
    · simp at h
    · rename_i header rest ht
      split at h
      · exact ih rest pr h
      · rename_i hb
        split at h
        · exact ih rest pr h
        · rename_i hlen
          split at h
          · simp at h
          · rename_i payload rest2 ht2
            split at h
            · rename_i hch
              rcases List.mem_cons.mp h with rfl | h'
              · obtain ⟨hplen, -, -⟩ := takeExact_spec ht2
                push_neg at hlen
                refine ⟨hch, ?_, ?_⟩
                · show 0 < payload.length
                  omega
                · show payload.length ≤ readBufLen
                  omega
              · exact ih rest2 pr h'
            · exact ih rest2 pr h

/-- C10: every media packet the read loop publishes to its output channel
is on channel 0, non-empty, and at most 128 KiB long; frames with a zero
or over-sized declared length are never forwarded. -/
theorem C10_published_frames (input : List ℕ) (pr : ℕ × List ℕ)
    (h : pr ∈ readLoopRun input) :
    pr.1 = 0 ∧ 0 < pr.2.length ∧ pr.2.length ≤ readBufLen :=
  readLoopAux_sound input.length input pr h

/-- C10 witness: the single-frame stream `$ 00 0002 'a' 'b'` publishes
exactly the packet `(0, "ab")`, which `C10_published_frames` bounds. -/
theorem C10_published_frames_witness :
    ((0, [97, 98]) : ℕ × List ℕ).1 = 0 ∧
    0 < ((0, [97, 98]) : ℕ × List ℕ).2.length ∧
    ((0, [97, 98]) : ℕ × List ℕ).2.length ≤ readBufLen :=
  C10_published_frames [36, 0, 0, 2, 97, 98] (0, [97, 98]) (by decide)

/-- C3 counterexample: on the stream consisting of the stray text
response "HTTPOK\r\n\r\n" followed by a well-formed channel-0 frame
carrying "ab", the actual read loop publishes nothing (its fixed 4-byte
skips swallow the frame's sentinel), while the claimed
scan-for-a-blank-line behaviour would recover and publish the frame. -/
theorem C3_stray_skip_counterexample :
    readLoopRun
        [72, 84, 84, 80, 79, 75, 13, 10, 13, 10, 36, 0, 0, 2, 97, 98] = [] ∧
    specScanReadRun
        [72, 84, 84, 80, 79, 75, 13, 10, 13, 10, 36, 0, 0, 2, 97, 98] =
      [(0, [97, 98])] := by decide

/-- C3 (amended): whenever the 4-byte marker read from the stream has a
non-sentinel first byte, the loop discards exactly those 4 bytes and
resumes with the next 4-byte marker read; no scan for a blank line is
performed. -/
theorem C3_stray_skip_discards_marker (fuel b0 b1 b2 b3 : ℕ)
    (rest : List ℕ) (h : b0 ≠ 36) :
    readLoopAux (fuel + 1) (b0 :: b1 :: b2 :: b3 :: rest) =
      readLoopAux fuel rest := by
  have ht : takeExact 4 (b0 :: b1 :: b2 :: b3 :: rest) =
      some ([b0, b1, b2, b3], rest) := by
    simp [takeExact]
  rw [readLoopAux, ht]
  simp [h]

/-- C3 witness: a marker starting with byte 72 is skipped as 4 bytes,
via `C3_stray_skip_discards_marker`. -/
theorem C3_stray_skip_discards_marker_witness :
    readLoopAux 1 [72, 0, 0, 0] = readLoopAux 0 [] :=
  C3_stray_skip_discards_marker 0 72 0 0 0 [] (by decide)

/-- The throttle's delivery invariant: either the latest submitted value
has already been sent, or a deferred send is scheduled. -/
def throttleInv {V : Type} (st : ThrottleState V) : Prop :=
  st.sent = st.pending ∨ st.timerRunning = true

/-- A submission overwrites the pending value and nothing else touches it. -/
lemma submitStep_pending {V : Type} [DecidableEq V] (st : ThrottleState V)
    (t : ℤ) (v : V) : (submitStep st t v).1.pending = v := by
  unfold submitStep triggerStep flushStep
  dsimp only
  split_ifs <;> rfl

/-- Every submission re-establishes the delivery invariant: it either
sends immediately, schedules the deferred send, finds one already
scheduled, or equals the sent value. -/
lemma submitStep_inv {V : Type} [DecidableEq V] (st : ThrottleState V)
    (t : ℤ) (v : V) : throttleInv (submitStep st t v).1 := by
  unfold throttleInv submitStep triggerStep flushStep
  dsimp only
  split_ifs <;> simp_all

/-- Running a concatenated trace reaches the same state as running the
pieces in sequence. -/
lemma runSubmits_fst_append {V : Type} [DecidableEq V] (st : ThrottleState V)
    (l1 l2 : List (ℤ × V)) :
    (runSubmits st (l1 ++ l2)).1 = (runSubmits (runSubmits st l1).1 l2).1 := by
  induction l1 generalizing st with
  | nil => rfl
  | cons a tl ih =>
    obtain ⟨t, v⟩ := a
    simp [runSubmits, ih]

/-- After the deferred send fires, the sent value is whatever was pending
at the moment it fired. -/
lemma timerFireStep_sent {V : Type} [DecidableEq V] (st : ThrottleState V)
    (now : ℤ) : (timerFireStep st now).1.sent = st.pending := by
  unfold timerFireStep flushStep
  split_ifs with h
  · rfl
  · push_neg at h
    exact h.symm

/-- The deferred send emits the pending value at fire time when it still
differs from the sent value. -/
lemma timerFireStep_emit {V : Type} [DecidableEq V] (st : ThrottleState V)
    (now : ℤ) (h : st.pending ≠ st.sent) :
    (timerFireStep st now).2 = some st.pending := by
  unfold timerFireStep flushStep
  rw [if_pos h]

/-- C1 counterexample: under the VISCA controller's rate limiter, two
pan/tilt submissions 10ms apart (faster than the 50ms minimum interval)
produce exactly one wire send — the first value's payload. The encoding
of the last submitted value (pan = 0.5) is different and never sent, and
the rate limiter schedules nothing, so the last value is permanently
starved, contradicting the claim for this controller. -/
theorem C1_visca_starvation_counterexample :
    (viscaRunPanTilts (-1000000) [(0, 1, 0), (10, 1/2, 0)]).2 =
      [[1, 6, 1, 24, 1, 2, 3]] ∧
    viscaPanTiltPayload (1/2) 0 = [1, 6, 1, 12, 1, 2, 3] := by
  with_unfolding_all decide

/-- C1 (amended): for the Panasonic controller's trailing-edge throttle
the claim holds — after any submission trace, the pending value is the
last value submitted, and either it has already been sent or a deferred
send is scheduled; when the deferred send fires after the remaining
cooldown it records as sent (and, if still unsent, emits) the most
recently pending value at that moment, so the last value submitted is
always eventually sent. The VISCA controller instead skips commands
arriving within 50ms of the last send without scheduling anything, so
its last value can be permanently starved. -/
theorem C1_trailing_edge_last_value {V : Type} [DecidableEq V]
    (init : ThrottleState V) (trace : List (ℤ × V)) (t : ℤ) (v : V) :
    ((runSubmits init (trace ++ [(t, v)])).1.pending = v) ∧
    ((runSubmits init (trace ++ [(t, v)])).1.sent = v ∨
      (runSubmits init (trace ++ [(t, v)])).1.timerRunning = true) ∧
    ((timerFireStep (runSubmits init (trace ++ [(t, v)])).1
      ((runSubmits init (trace ++ [(t, v)])).1.lastSendTime + minIntervalMs)).1.sent
        = v) ∧
    ((runSubmits init (trace ++ [(t, v)])).1.sent ≠ v →
      (timerFireStep (runSubmits init (trace ++ [(t, v)])).1
        ((runSubmits init (trace ++ [(t, v)])).1.lastSendTime + minIntervalMs)).2
          = some v) := by
  have hst : (runSubmits init (trace ++ [(t, v)])).1 =
      (submitStep (runSubmits init trace).1 t v).1 := by
    rw [runSubmits_fst_append]
    simp [runSubmits]
  have hp : (runSubmits init (trace ++ [(t, v)])).1.pending = v := by
    rw [hst]; exact submitStep_pending _ _ _
  have hinv : throttleInv (runSubmits init (trace ++ [(t, v)])).1 := by
    rw [hst]; exact submitStep_inv _ _ _
  refine ⟨hp, ?_, ?_, ?_⟩
  · rcases hinv with h | h
    · exact Or.inl (h.trans hp)
    · exact Or.inr h
  · rw [timerFireStep_sent, hp]
  · intro hne
    rw [timerFireStep_emit _ _ (by rw [hp]; exact fun hc => hne (hc ▸ rfl)), hp]

/-- C1 witness: a burst of two pan/tilt submissions 10ms apart through
the Panasonic throttle, via `C1_trailing_edge_last_value`: the first is
sent immediately, the second is pending with a deferred send scheduled,
and the fire delivers it. -/
theorem C1_trailing_edge_last_value_witness :
    ((runSubmits (⟨-1000000, false, (0, 0), (0, 0)⟩ : ThrottleState (ℚ × ℚ))
        ([(0, (1, 0))] ++ [(10, (1/2, 0))])).1.pending = (1/2, 0)) ∧
    ((runSubmits (⟨-1000000, false, (0, 0), (0, 0)⟩ : ThrottleState (ℚ × ℚ))
        ([(0, (1, 0))] ++ [(10, (1/2, 0))])).1.sent = (1/2, 0) ∨
      (runSubmits (⟨-1000000, false, (0, 0), (0, 0)⟩ : ThrottleState (ℚ × ℚ))
        ([(0, (1, 0))] ++ [(10, (1/2, 0))])).1.timerRunning = true) ∧
    ((timerFireStep
        (runSubmits (⟨-1000000, false, (0, 0), (0, 0)⟩ : ThrottleState (ℚ × ℚ))
          ([(0, (1, 0))] ++ [(10, (1/2, 0))])).1
        ((runSubmits (⟨-1000000, false, (0, 0), (0, 0)⟩ : ThrottleState (ℚ × ℚ))
          ([(0, (1, 0))] ++ [(10, (1/2, 0))])).1.lastSendTime + minIntervalMs)).1.sent
        = (1/2, 0)) ∧
    ((timerFireStep
        (runSubmits (⟨-1000000, false, (0, 0), (0, 0)⟩ : ThrottleState (ℚ × ℚ))
          ([(0, (1, 0))] ++ [(10, (1/2, 0))])).1
        ((runSubmits (⟨-1000000, false, (0, 0), (0, 0)⟩ : ThrottleState (ℚ × ℚ))
          ([(0, (1, 0))] ++ [(10, (1/2, 0))])).1.lastSendTime + minIntervalMs)).2
          = some (1/2, 0)) := by
  have h := C1_trailing_edge_last_value
    (⟨-1000000, false, (0, 0), (0, 0)⟩ : ThrottleState (ℚ × ℚ))
    [(0, (1, 0))] 10 (1/2, 0)
  exact ⟨h.1, h.2.1, h.2.2.1, h.2.2.2 (by with_unfolding_all decide)⟩

/-- C2 counterexample: the VISCA controller does not track the last sent
value: submitting pan/tilt (1, 0) at t=0 and again at t=100 — the second
submission's value equal to the value last sent on the wire — produces
two identical wire sends, contradicting the claim for this controller. -/
theorem C2_visca_resend_counterexample :
    (viscaRunPanTilts (-1000000) [(0, 1, 0), (100, 1, 0)]).2 =
      [[1, 6, 1, 24, 1, 2, 3], [1, 6, 1, 24, 1, 2, 3]] := by
  with_unfolding_all decide

/-- C2 (amended): for the Panasonic controller, submitting a command
whose value equals the last value sent for that actuator group never
triggers a network send, even when it differs from the currently pending
value: the submission emits nothing, leaves the sent value, scheduled
flag and send timestamp unchanged, and any deferred send that later
fires emits nothing either. The VISCA controller keeps no sent value and
re-sends once its 50ms interval has elapsed. -/
theorem C2_sent_value_never_resent {V : Type} [DecidableEq V]
    (st : ThrottleState V) (now : ℤ) (v : V) (h : v = st.sent) :
    (submitStep st now v).2 = none ∧
    (submitStep st now v).1.sent = st.sent ∧
    (submitStep st now v).1.timerRunning = st.timerRunning ∧
    (submitStep st now v).1.lastSendTime = st.lastSendTime ∧
    (∀ u : ℤ, (timerFireStep (submitStep st now v).1 u).2 = none) := by
  subst h
  unfold submitStep
  rw [if_neg (by simp)]
  refine ⟨rfl, rfl, rfl, rfl, fun u => ?_⟩
  unfold timerFireStep flushStep
  rw [if_neg (by simp)]

/-- C2 witness: with pending (1, 0) unsent and (2, 0) last sent,
resubmitting (2, 0) emits nothing now and nothing at the later fire, via
`C2_sent_value_never_resent`. -/
theorem C2_sent_value_never_resent_witness :
    (submitStep (⟨0, true, (1, 0), (2, 0)⟩ : ThrottleState (ℚ × ℚ))
      10 (2, 0)).2 = none ∧
    (timerFireStep
      (submitStep (⟨0, true, (1, 0), (2, 0)⟩ : ThrottleState (ℚ × ℚ))
        10 (2, 0)).1 60).2 = none := by
  have h := C2_sent_value_never_resent
    (⟨0, true, (1, 0), (2, 0)⟩ : ThrottleState (ℚ × ℚ)) 10 (2, 0) rfl
  exact ⟨h.1, h.2.2.2.2 60⟩

/-- Clamping is the identity on values already in [-1, 1]. -/
lemma clampQ_eq_self {v : ℚ} (h1 : -1 ≤ v) (h2 : v ≤ 1) : clampQ v = v := by
  unfold clampQ
  rw [if_neg (not_lt.mpr h1), if_neg (not_lt.mpr h2)]

/-- Clamping twice equals clamping once. -/
lemma clampQ_idem (v : ℚ) : clampQ (clampQ v) = clampQ v := by
  unfold clampQ
  split_ifs <;> first | rfl | linarith

/-- Truncation toward zero of a value at least a nonnegative integer
stays at least that integer. -/
lemma goTrunc_ge (m : ℤ) (q : ℚ) (hm : 0 ≤ m) (h : (m : ℚ) ≤ q) :
    m ≤ goTrunc q := by
  unfold goTrunc
  rw [if_neg (not_lt.mpr (le_trans (by exact_mod_cast hm) h))]
  exact Int.le_floor.mpr h

/-- Integer clamping returns the upper bound for values at or above it. -/
lemma clampInt_of_ge {v lo hi : ℤ} (hlo : lo ≤ hi) (h : hi ≤ v) :
    clampInt v lo hi = hi := by
  unfold clampInt
  split_ifs <;> omega

/-- On values at most -1 the absolute value is the negation. -/
lemma absQ_of_le_neg_one {v : ℚ} (h : v ≤ -1) : absQ v = -v := by
  unfold absQ
  rw [if_pos (by linarith)]

/-- On values at least 1 the absolute value is the identity. -/
lemma absQ_of_one_le {v : ℚ} (h : 1 ≤ v) : absQ v = v := by
  unfold absQ
  rw [if_neg (by push_neg; linarith)]

/-- A scaled magnitude at or above the speed ceiling clamps to it. -/
lemma viscaSpeedSat (v : ℚ) (hi : ℤ) (h1 : 1 ≤ hi) (h : (hi : ℚ) ≤ absQ v * hi) :
    clampInt (goTrunc (absQ v * hi)) 1 hi = hi :=
  clampInt_of_ge h1 (goTrunc_ge _ _ (by omega) h)

/-- The VISCA pan/tilt encoding of an out-of-range pan equals that of the
pan clamped to [-1, 1]: the speed clamp and the direction comparisons make
the encoder behave as if the input were clamped. -/
lemma viscaPanTilt_clamp_pan (pan tilt : ℚ) :
    viscaPanTiltPayload pan tilt = viscaPanTiltPayload (clampQ pan) tilt := by
  rcases lt_or_le pan (-1) with h | h
  · have hc : clampQ pan = -1 := by unfold clampQ; rw [if_pos h]
    rw [hc]
    unfold viscaPanTiltPayload
    dsimp only
    rw [if_pos (show pan < -0.05 by norm_num; linarith),
      if_pos (show (-1 : ℚ) < -0.05 by norm_num)]
    have hs : clampInt (goTrunc (absQ pan * 24)) 1 24 = 24 := by
      apply viscaSpeedSat _ _ (by norm_num)
      rw [absQ_of_le_neg_one (by linarith)]
      push_cast
      nlinarith
    have hs2 : clampInt (goTrunc (absQ (-1 : ℚ) * 24)) 1 24 = 24 := by
      with_unfolding_all decide
    rw [hs, hs2]
  · rcases le_or_lt pan 1 with h2 | h2
    · rw [clampQ_eq_self h h2]
    · have hc : clampQ pan = 1 := by
        unfold clampQ
        rw [if_neg (by linarith), if_pos h2]
      rw [hc]
      unfold viscaPanTiltPayload
      dsimp only
      rw [if_neg (show ¬ pan < -0.05 by push_neg; norm_num; linarith),
        if_pos (show pan > 0.05 by norm_num; linarith),
        if_neg (show ¬ (1 : ℚ) < -0.05 by norm_num),
        if_pos (show (1 : ℚ) > 0.05 by norm_num)]
      have hs : clampInt (goTrunc (absQ pan * 24)) 1 24 = 24 := by
        apply viscaSpeedSat _ _ (by norm_num)
        rw [absQ_of_one_le (by linarith)]
        push_cast
        nlinarith
      have hs2 : clampInt (goTrunc (absQ (1 : ℚ) * 24)) 1 24 = 24 := by
        with_unfolding_all decide
      rw [hs, hs2]

/-- The tilt analogue of the clamping equivalence. -/
lemma viscaPanTilt_clamp_tilt (pan tilt : ℚ) :
    viscaPanTiltPayload pan tilt = viscaPanTiltPayload pan (clampQ tilt) := by
  rcases lt_or_le tilt (-1) with h | h
  · have hc : clampQ tilt = -1 := by unfold clampQ; rw [if_pos h]
    rw [hc]
    unfold viscaPanTiltPayload
    dsimp only
    rw [if_neg (show ¬ tilt > 0.05 by push_neg; norm_num; linarith),
      if_pos (show tilt < -0.05 by norm_num; linarith),
      if_neg (show ¬ (-1 : ℚ) > 0.05 by norm_num),
      if_pos (show (-1 : ℚ) < -0.05 by norm_num)]
    have hs : clampInt (goTrunc (absQ tilt * 20)) 1 20 = 20 := by
      apply viscaSpeedSat _ _ (by norm_num)
      rw [absQ_of_le_neg_one (by linarith)]
      push_cast
      nlinarith
    have hs2 : clampInt (goTrunc (absQ (-1 : ℚ) * 20)) 1 20 = 20 := by
      with_unfolding_all decide
    rw [hs, hs2]
  · rcases le_or_lt tilt 1 with h2 | h2
    · rw [clampQ_eq_self h h2]
    · have hc : clampQ tilt = 1 := by
        unfold clampQ
        rw [if_neg (by linarith), if_pos h2]
      rw [hc]
      unfold viscaPanTiltPayload
      dsimp only
      rw [if_pos (show tilt > 0.05 by norm_num; linarith),
        if_pos (show (1 : ℚ) > 0.05 by norm_num)]
      have hs : clampInt (goTrunc (absQ tilt * 20)) 1 20 = 20 := by
        apply viscaSpeedSat _ _ (by norm_num)
        rw [absQ_of_one_le (by linarith)]
        push_cast
        nlinarith
      have hs2 : clampInt (goTrunc (absQ (1 : ℚ) * 20)) 1 20 = 20 := by
        with_unfolding_all decide
      rw [hs, hs2]

/-- C7: in both encoder variants the boundary inputs encode to the
documented extreme codes with the correct direction (VISCA pan -1.0/1.0:
speed byte 24 with direction 0x01/0x02; Panasonic -1.0/1.0: field values
01/99), every axis value within the variant deadzone encodes to the stop
code/direction (VISCA direction 0x03 with speed forced to 0x01 for pan
and tilt; Panasonic value 50), and both encoders behave on every input
exactly as on the input clamped to [-1.0, 1.0]. -/
theorem C7_encoder_boundary_and_deadzone :
    (∀ tilt : ℚ, (viscaPanTiltPayload (-1) tilt).getD 3 0 = 24 ∧
      (viscaPanTiltPayload (-1) tilt).getD 5 0 = 1) ∧
    (∀ tilt : ℚ, (viscaPanTiltPayload 1 tilt).getD 3 0 = 24 ∧
      (viscaPanTiltPayload 1 tilt).getD 5 0 = 2) ∧
    (∀ pan tilt : ℚ, -0.05 ≤ pan → pan ≤ 0.05 →
      (viscaPanTiltPayload pan tilt).getD 5 0 = 3 ∧
      (viscaPanTiltPayload pan tilt).getD 3 0 = 1) ∧
    (∀ pan tilt : ℚ, -0.05 ≤ tilt → tilt ≤ 0.05 →
      (viscaPanTiltPayload pan tilt).getD 6 0 = 3 ∧
      (viscaPanTiltPayload pan tilt).getD 4 0 = 1) ∧
    speedToValue (-1) = 1 ∧ speedToValue 1 = 99 ∧
    (∀ v : ℚ, -0.05 < v → v < 0.05 → speedToValue v = 50) ∧
    (∀ v : ℚ, speedToValue v = speedToValue (clampQ v)) ∧
    (∀ pan tilt : ℚ, viscaPanTiltPayload pan tilt =
      viscaPanTiltPayload (clampQ pan) (clampQ tilt)) := by
  refine ⟨fun tilt => ?_, fun tilt => ?_, fun pan tilt h1 h2 => ?_,
    fun pan tilt h1 h2 => ?_, ?_, ?_, fun v h1 h2 => ?_, fun v => ?_,
    fun pan tilt => ?_⟩
  · unfold viscaPanTiltPayload
    dsimp only
    rw [if_pos (show (-1 : ℚ) < -0.05 by norm_num),
      show clampInt (goTrunc (absQ (-1 : ℚ) * 24)) 1 24 = 24 from by
        with_unfolding_all decide]
    exact ⟨rfl, rfl⟩
  · unfold viscaPanTiltPayload
    dsimp only
    rw [if_neg (show ¬ (1 : ℚ) < -0.05 by norm_num),
      if_pos (show (1 : ℚ) > 0.05 by norm_num),
      show clampInt (goTrunc (absQ (1 : ℚ) * 24)) 1 24 = 24 from by
        with_unfolding_all decide]
    exact ⟨rfl, rfl⟩
  · unfold viscaPanTiltPayload
    dsimp only
    rw [if_neg (not_lt.mpr h1), if_neg (not_lt.mpr h2)]
    exact ⟨rfl, rfl⟩
  · unfold viscaPanTiltPayload
    dsimp only
    rw [if_neg (not_lt.mpr h2), if_neg (not_lt.mpr h1)]
    exact ⟨rfl, rfl⟩
  · with_unfolding_all decide
  · with_unfolding_all decide
  · unfold speedToValue
    dsimp only
    rw [clampQ_eq_self (by linarith) (by linarith), if_pos ⟨h1, h2⟩]
  · simp only [speedToValue, clampQ_idem]
  · rw [viscaPanTilt_clamp_pan, viscaPanTilt_clamp_tilt]


/-- C7 witness: concrete instances of the boundary, deadzone and clamping
conjuncts of `C7_encoder_boundary_and_deadzone`. -/
theorem C7_encoder_boundary_and_deadzone_witness :
    (viscaPanTiltPayload (-1) 0).getD 3 0 = 24 ∧
    (viscaPanTiltPayload 0 0).getD 5 0 = 3 ∧
    speedToValue (1/100) = 50 ∧
    viscaPanTiltPayload 2 0 = viscaPanTiltPayload (clampQ 2) (clampQ 0) :=
  ⟨(C7_encoder_boundary_and_deadzone.1 0).1,
   (C7_encoder_boundary_and_deadzone.2.2.1 0 0
     (by with_unfolding_all decide) (by with_unfolding_all decide)).1,
   C7_encoder_boundary_and_deadzone.2.2.2.2.2.2.1 (1/100)
     (by with_unfolding_all decide) (by with_unfolding_all decide),
   C7_encoder_boundary_and_deadzone.2.2.2.2.2.2.2.2 2 0⟩

end PtzRemote
